import Mathlib

/-!
Shallow embedding of the patron HTTP component used by
go-patron-realworld-example-app (src/cmd/api/main.go, package http part).

Go machine types are modelled as follows: `time.Duration` is a `Nat`
counting nanoseconds; Go `error` values are strings (`GoErr`), with
`Option GoErr` where Go distinguishes `nil` from a real error; the
`map[string]interface{}` info map is an association list with
insert-or-replace semantics; a `*Component` mutated in place becomes
explicit state passing (`Component → Except GoErr Component` for an
option, `Component → Component` for `createInfo`).

HTTP handlers are modelled as functions from a request to either a
response or a panic (`HOut`), which lets the recovery middleware and the
panic-propagation claims be stated executably.  The `sync.Mutex` field
guards only the setup window and has no observable effect in a
sequential embedding, so it is dropped; the concurrent parts of `Run`
and `listenAndServe` are embedded as traces of the events each execution
path performs, with an oracle (`FirstEvent`) choosing which arm of the
`select` fires first, exactly the nondeterminism the source exposes.
-/

namespace PatronHttp

/-- Go `error` values, modelled by their message. -/
abbrev GoErr := String

/-- Go `time.Duration`, in nanoseconds. -/
abbrev Duration := Nat

/-- `time.Second`. -/
def second : Duration := 1000000000

/-- Source constant `httpPort = 50000`. -/
def httpPort : Nat := 50000

/-- Source constant `httpReadTimeout = 5 * time.Second`. -/
def httpReadTimeout : Duration := 5 * second

/-- Source constant `httpWriteTimeout = 10 * time.Second`. -/
def httpWriteTimeout : Duration := 10 * second

/-- Source constant `httpIdleTimeout = 120 * time.Second`. -/
def httpIdleTimeout : Duration := 120 * second

/-- Health status of the component.  Modelled from the spec: the
`HealthStatus` enumeration {Healthy, Unhealthy, Degraded} is declared in
the patron http package whose type declarations are not under src/; the
spec's §3 lists exactly these variants, and src/ references `Healthy`. -/
inductive HealthStatus where
  | Healthy
  | Unhealthy
  | Degraded
  deriving DecidableEq, Repr

/-- `type HealthCheckFunc func() HealthStatus`. -/
abbrev HealthCheckFunc := Unit → HealthStatus

/-- Source `DefaultHealthCheck = func() HealthStatus { return Healthy }`. -/
def DefaultHealthCheck : HealthCheckFunc := fun _ => HealthStatus.Healthy

/-- An HTTP request, reduced to the routing-relevant data. -/
structure Request where
  method : String
  path : String
  deriving DecidableEq, Repr

/-- An HTTP response: status code and body. -/
structure Response where
  status : Nat
  body : String
  deriving DecidableEq, Repr

/-- Outcome of running a handler on one request: a response, or a panic
propagating out of the handler. -/
inductive HOut where
  | ok (r : Response)
  | panicked (msg : String)
  deriving DecidableEq, Repr

/-- `HOut.isOk`: the handler produced a response rather than a panic. -/
def HOut.isOk : HOut → Bool
  | .ok _ => true
  | .panicked _ => false

/-- `http.Handler`, modelled as a function on requests. -/
abbrev Handler := Request → HOut

/-- `type MiddlewareFunc func(http.Handler) http.Handler`. -/
abbrev MiddlewareFunc := Handler → Handler

/-- A route descriptor, as in the patron http package: method, pattern,
handler and per-route middlewares. -/
structure Route where
  Method : String
  Pattern : String
  Handler : Handler
  Middlewares : List MiddlewareFunc

/-- Values stored in the info map.  `.dur d` stands for the formatted
rendering (`Duration.String()`) of the duration `d`. -/
inductive InfoVal where
  | str (s : String)
  | nat (n : Nat)
  | dur (d : Duration)
  deriving DecidableEq, Repr

/-- The info `map[string]interface{}`, modelled as a partial function
(Go maps are unordered; only lookup and insert are used). -/
abbrev InfoMap := String → Option InfoVal

/-- Insert-or-replace on the map model: `m[k] = v`. -/
def setKey (m : InfoMap) (k : String) (v : InfoVal) : InfoMap :=
  fun q => if q = k then some v else m q

/-- Lookup on the map model: `m[k]`. -/
def getKey (m : InfoMap) (k : String) : Option InfoVal := m k

/-- The empty map, as built by `make(map[string]interface{})`. -/
def emptyInfo : InfoMap := fun _ => none

/-- The `Component` struct (src lines 78-89); the mutex is dropped (it
has no observable effect in the sequential embedding). -/
structure Component where
  hc : HealthCheckFunc
  httpPort : Nat
  httpReadTimeout : Duration
  httpWriteTimeout : Duration
  info : InfoMap
  routes : List Route
  middlewares : List MiddlewareFunc
  certFile : String
  keyFile : String

/-- `type OptionFunc func(*Component) error`, as state passing. -/
abbrev OptionFunc := Component → Except GoErr Component

/-- `MiddlewareChain`.  Modelled from the spec: `MiddlewareChain` is
called from src/ but its body lives in the patron http package outside
src/; spec §4.3 says it produces a handler equivalent to
`mw[0](mw[1](...mw[n-1](terminal)))`. -/
def MiddlewareChain (f : Handler) (mm : List MiddlewareFunc) : Handler :=
  List.foldr (fun m h => m h) f mm

/-- `NewRecoveryMiddleware`.  Modelled from the spec: its body lives in
the patron http package outside src/; spec §7 says a fault inside the
wrapped handler is converted into a server-error response plus a logged
diagnostic (the log emission is an I/O effect outside this embedding)
and never escapes. -/
def NewRecoveryMiddleware : MiddlewareFunc := fun next req =>
  match next req with
  | .ok r => .ok r
  | .panicked _ => .ok { status := 500, body := "Internal Server Error" }

/-- Response mapping of the health route.  Modelled from the spec:
`healthCheckRoute`'s handler lives outside src/; spec §4.2 maps
{Healthy→200, Degraded→200 with warning body, Unhealthy→503}. -/
def healthResponse : HealthStatus → Response
  | .Healthy => { status := 200, body := "" }
  | .Degraded => { status := 200, body := "degraded" }
  | .Unhealthy => { status := 503, body := "" }

/-- `healthCheckRoute`.  Modelled from the spec: declared in the patron
http package outside src/; spec §4.2 and §6: `GET /health`, invoking the
configured predicate fresh on every call. -/
def healthCheckRoute (hc : HealthCheckFunc) : Route :=
  { Method := "GET", Pattern := "/health",
    Handler := fun _ => .ok (healthResponse (hc ())), Middlewares := [] }

/-- `profilingRoutes`.  Modelled from the spec: declared outside src/;
spec §4.2 and §6: a fixed set of read-only runtime-introspection
endpoints following the standard pprof path family. -/
def profilingRoutes : List Route :=
  [ { Method := "GET", Pattern := "/debug/pprof/",
      Handler := fun _ => .ok { status := 200, body := "pprof index" }, Middlewares := [] },
    { Method := "GET", Pattern := "/debug/pprof/cmdline/",
      Handler := fun _ => .ok { status := 200, body := "pprof cmdline" }, Middlewares := [] },
    { Method := "GET", Pattern := "/debug/pprof/profile/",
      Handler := fun _ => .ok { status := 200, body := "pprof profile" }, Middlewares := [] },
    { Method := "GET", Pattern := "/debug/pprof/symbol/",
      Handler := fun _ => .ok { status := 200, body := "pprof symbol" }, Middlewares := [] },
    { Method := "GET", Pattern := "/debug/pprof/heap/",
      Handler := fun _ => .ok { status := 200, body := "pprof heap" }, Middlewares := [] } ]

/-- `metricRoute`.  Modelled from the spec: declared outside src/; spec
§4.2 and §6: reserves the metrics-exposition path, collection being an
external collaborator. -/
def metricRoute : Route :=
  { Method := "GET", Pattern := "/metrics",
    Handler := fun _ => .ok { status := 200, body := "metrics" }, Middlewares := [] }

/-- `infoRoute`.  Modelled from the spec: declared outside src/; spec
§4.2 and §6: `GET /info` returns the frozen info map serialized. -/
def infoRoute : Route :=
  { Method := "GET", Pattern := "/info",
    Handler := fun _ => .ok { status := 200, body := "info" }, Middlewares := [] }

/-- The fresh default component built at the top of `New`
(src lines 93-101). -/
def defaultComponent : Component :=
  { hc := DefaultHealthCheck
    httpPort := httpPort
    httpReadTimeout := httpReadTimeout
    httpWriteTimeout := httpWriteTimeout
    routes := []
    middlewares := []
    info := emptyInfo
    certFile := ""
    keyFile := "" }

/-- The option-application loop of `New` (src lines 103-108): options
run left to right, the first error aborts. -/
def applyOptions (c : Component) : List OptionFunc → Except GoErr Component
  | [] => .ok c
  | o :: oo =>
    match o c with
    | .error e => .error e
    | .ok c1 => applyOptions c1 oo

/-- The four built-in route appends of `New` (src lines 110-113), in
source order: health, profiling, metric, info. -/
def addBuiltinRoutes (c : Component) : Component :=
  { c with routes :=
      (((c.routes ++ [healthCheckRoute c.hc]) ++ profilingRoutes)
        ++ [metricRoute]) ++ [infoRoute] }

/-- `createInfo` (src lines 178-189). -/
def Component.createInfo (c : Component) : Component :=
  let i := setKey c.info "type" (InfoVal.str "http")
  let i := setKey i "port" (InfoVal.nat c.httpPort)
  let i := setKey i "read-timeout" (InfoVal.dur c.httpReadTimeout)
  let i := setKey i "write-timeout" (InfoVal.dur c.httpWriteTimeout)
  let i := setKey i "idle-timeout" (InfoVal.dur httpIdleTimeout)
  let i :=
    if c.keyFile ≠ "" ∧ c.certFile ≠ "" then
      setKey (setKey (setKey i "type" (InfoVal.str "https"))
        "key-file" (InfoVal.str c.keyFile)) "cert-file" (InfoVal.str c.certFile)
    else i
  { c with info := i }

/-- `New` (src lines 92-117). -/
def New (oo : List OptionFunc) : Except GoErr Component :=
  match applyOptions defaultComponent oo with
  | .error e => .error e
  | .ok c => .ok (addBuiltinRoutes c).createInfo

/-- The per-route handler installed into the router (src lines 155-161):
wrap with the per-route middleware chain when there are middlewares. -/
def routeHandler (r : Route) : Handler :=
  if r.Middlewares.length > 0 then MiddlewareChain r.Handler r.Middlewares
  else r.Handler

/-- The router built by `createHTTPServer`'s registration loop:
dispatch to the first route whose method and pattern match, else 404
(httprouter's not-found behaviour). -/
def buildRouter (routes : List Route) : Handler := fun req =>
  match routes.find? (fun r => r.Method == req.method && r.Pattern == req.path) with
  | some r => routeHandler r req
  | none => .ok { status := 404, body := "404 page not found" }

/-- The `http.Server` value built by `createHTTPServer`
(src lines 169-175). -/
structure Server where
  Addr : String
  ReadTimeout : Duration
  WriteTimeout : Duration
  IdleTimeout : Duration
  Handler : Handler

/-- `createHTTPServer` (src lines 152-176): register routes, wrap the
router with the recovery middleware first, then with the component's
middlewares. -/
def Component.createHTTPServer (c : Component) : Server :=
  let router := buildRouter c.routes
  let routerAfterMiddleware := MiddlewareChain router [NewRecoveryMiddleware]
  let routerFinal := MiddlewareChain routerAfterMiddleware c.middlewares
  { Addr := ":" ++ toString c.httpPort
    ReadTimeout := c.httpReadTimeout
    WriteTimeout := c.httpWriteTimeout
    IdleTimeout := httpIdleTimeout
    Handler := routerFinal }

/-- Events performed by the background goroutine `listenAndServe`:
starting a TLS listener, starting a plaintext listener, or sending a
listener result on the error channel. -/
inductive ServeEvent where
  | tlsListen
  | plainListen
  | sendErr (e : GoErr)
  deriving DecidableEq, Repr

/-- `listenAndServe` (src lines 142-150) as the trace of events the
goroutine performs, in program order, given the results the two listener
calls would return (`ListenAndServeTLS` and `ListenAndServe` only return
on failure or close).  The trace assumes each listener call returns and
each channel send is eventually received; the source has no `return`
after the TLS branch, so the plaintext events follow the TLS events
whenever both cert and key are set. -/
def Component.listenAndServe (c : Component) (tlsResult plainResult : GoErr) :
    List ServeEvent :=
  (if c.certFile ≠ "" ∧ c.keyFile ≠ "" then
    [ServeEvent.tlsListen, ServeEvent.sendErr tlsResult]
  else []) ++ [ServeEvent.plainListen, ServeEvent.sendErr plainResult]

/-- Number of channel sends in a background trace. -/
def countSends (tr : List ServeEvent) : Nat :=
  (tr.filter (fun ev => match ev with | .sendErr _ => true | _ => false)).length

/-- Which arm of `Run`'s `select` (src lines 133-139) fires first: the
caller's context is done, or an error is received from the background
path's channel.  The source gives no tie-break; this oracle is exactly
that nondeterminism. -/
inductive FirstEvent where
  | ctxDone
  | failRecv (e : GoErr)
  deriving DecidableEq, Repr

/-- Observable actions of the calling path inside `Run`. -/
inductive RunEvent (Ctx : Type) where
  | serverCreated (addr : String)
  | backgroundLaunched
  | shutdownCalled (ctx : Ctx)

/-- `Run` (src lines 125-140): build the server under the lock, launch
the background path, then wait on the two-way select.  `shutdown`
models `srv.Shutdown` as a function of the context it is given (`none`
is a clean drain, `some e` a shutdown failure or timeout); `fe` is the
oracle for which select arm fires first.  Returns Go's `error` result
together with the trace of actions the calling path performed. -/
def Component.Run {Ctx : Type} (c : Component) (ctx : Ctx) (fe : FirstEvent)
    (shutdown : Ctx → Option GoErr) : Option GoErr × List (RunEvent Ctx) :=
  let srv := c.createHTTPServer
  let setup := [RunEvent.serverCreated srv.Addr, RunEvent.backgroundLaunched]
  match fe with
  | .ctxDone => (shutdown ctx, setup ++ [RunEvent.shutdownCalled ctx])
  | .failRecv e => (some e, setup)

/-- Serving a sequence of health-route calls against a stateful health
predicate.  Modelled from the spec: the health route invokes the
configured predicate fresh on every call (§4.2, "never cached"), so a
predicate with closure state is threaded through successive calls. -/
def serveHealthSeq {σ : Type} (f : σ → HealthStatus × σ) : Nat → σ → List Response
  | 0, _ => []
  | n + 1, s =>
    let p := f s
    healthResponse p.1 :: serveHealthSeq f n p.2

/-! ### Concrete instances used to settle the claims -/

/-- A component configured for TLS (both cert and key non-empty). -/
def tlsComponent : Component :=
  { defaultComponent with certFile := "cert.pem", keyFile := "key.pem" }

/-- The component `New` builds from the empty option list. -/
def builtComponent : Component :=
  (addBuiltinRoutes defaultComponent).createInfo

/-- An option that always fails, standing for any invalid option value
(e.g. an out-of-range port). -/
def failingOption : OptionFunc := fun _ => .error "invalid HTTP Port provided"

/-- An option that sets both TLS paths, standing for the set-tls
construction option. -/
def tlsOption : OptionFunc := fun c =>
  .ok { c with certFile := "cert.pem", keyFile := "key.pem" }

/-- An option that sets the port to a fixed valid value. -/
def portOption : OptionFunc := fun c => .ok { c with httpPort := 8080 }

/-- The component `New` builds from `[tlsOption]`. -/
def builtTLSComponent : Component :=
  (addBuiltinRoutes { defaultComponent with
    certFile := "cert.pem", keyFile := "key.pem" }).createInfo

/-- A caller-supplied middleware that panics without invoking the next
handler. -/
def panickingMiddleware : MiddlewareFunc := fun _ _ => HOut.panicked "middleware fault"

/-- A component whose only caller-supplied middleware panics. -/
def mwPanicComponent : Component :=
  { defaultComponent with middlewares := [panickingMiddleware] }

/-- A handler that always panics. -/
def panickingHandler : Handler := fun _ => HOut.panicked "handler fault"

/-- A health predicate over a Bool state that reports Healthy once and
then flips to Unhealthy. -/
def flippingHealthCheck : Bool → HealthStatus × Bool := fun s =>
  (if s then HealthStatus.Healthy else HealthStatus.Unhealthy, false)

/-! ### Helper lemmas -/

/-- Splitting the option-application loop at an append. -/
theorem applyOptions_append (c : Component) (xs ys : List OptionFunc) :
    applyOptions c (xs ++ ys) =
      match applyOptions c xs with
      | .error e => .error e
      | .ok c1 => applyOptions c1 ys := by
  induction xs generalizing c with
  | nil => rfl
  | cons o xs ih =>
    simp only [List.cons_append, applyOptions]
    cases o c with
    | error e => rfl
    | ok c1 => exact ih c1

/-- The option-application loop preserves every component projection
that each option in the list preserves. -/
theorem applyOptions_preserves {α : Type} (f : Component → α)
    (oo : List OptionFunc) (a b : Component)
    (hf : ∀ o ∈ oo, ∀ x y, o x = Except.ok y → f y = f x)
    (h : applyOptions a oo = Except.ok b) : f b = f a := by
  induction oo generalizing a with
  | nil =>
    simp only [applyOptions] at h
    cases h
    rfl
  | cons o oo ih =>
    simp only [applyOptions] at h
    cases ho : o a with
    | error e => rw [ho] at h; cases h
    | ok c1 =>
      rw [ho] at h
      have h1 : f c1 = f a := hf o (List.mem_cons_self o oo) a c1 ho
      have h2 : f b = f c1 :=
        ih c1 (fun o' ho' x y hxy => hf o' (List.mem_cons_of_mem o ho') x y hxy) h
      exact h2.trans h1

/-- A successful `New` is the built-in-route append and info
computation applied to the option-fold result. -/
theorem New_ok_elim (oo : List OptionFunc) (c : Component)
    (h : New oo = Except.ok c) :
    ∃ c0, applyOptions defaultComponent oo = Except.ok c0 ∧
      c = (addBuiltinRoutes c0).createInfo := by
  unfold New at h
  cases hoo : applyOptions defaultComponent oo with
  | error e => rw [hoo] at h; cases h
  | ok c0 =>
    rw [hoo] at h
    cases h
    exact ⟨c0, rfl, rfl⟩

/-! ### Claims -/

/-- Claim C1 (evidence of the code bug): for the TLS-configured
component, the background trace of `listenAndServe` starts the TLS
listener and sends its terminal error, but then — because the source has
no `return` after the TLS branch — also starts a plaintext listener and
attempts a second send, contradicting "the background path never starts
a plaintext listener for that Component". -/
theorem listenAndServe_tls_falls_through_to_plaintext :
    tlsComponent.certFile ≠ "" ∧ tlsComponent.keyFile ≠ "" ∧
    ServeEvent.plainListen ∈
      tlsComponent.listenAndServe "tls: bad certificate" "serve closed" ∧
    tlsComponent.listenAndServe "tls: bad certificate" "serve closed" =
      [ServeEvent.tlsListen, ServeEvent.sendErr "tls: bad certificate",
       ServeEvent.plainListen, ServeEvent.sendErr "serve closed"] := by
  refine ⟨?_, ?_, ?_, ?_⟩ <;> decide

/-- Claim C2 (evidence of the code bug): in one invocation the
background path of a TLS-configured component performs two sends on the
error channel (the fall-through after the TLS branch reaches the
plaintext send as well), while a plaintext component performs one; the
claim says at most one send regardless of configuration. -/
theorem listenAndServe_tls_sends_twice :
    countSends (tlsComponent.listenAndServe
      "listen tcp :50000: bind: address already in use"
      "listen tcp :50000: bind: address already in use") = 2 ∧
    countSends (defaultComponent.listenAndServe
      "unused" "listen tcp :50000: bind: address already in use") = 1 := by
  constructor <;> decide

/-- Claim C3: `Run` waits on exactly two events.  If the background
error is received first, `Run` returns exactly that error and never
calls `Shutdown`; if the context fires first, `Run` calls `Shutdown`
with the very same context (so shutdown is bounded by the same token's
deadline) and returns the shutdown outcome (`none` on clean drain, the
shutdown error otherwise).  The two arms of the oracle are exhaustive,
so exactly one of the two outcomes occurs. -/
theorem Run_two_outcomes {Ctx : Type} (c : Component) (ctx : Ctx)
    (fe : FirstEvent) (shutdown : Ctx → Option GoErr) :
    (fe = FirstEvent.ctxDone ∨ ∃ e, fe = FirstEvent.failRecv e) ∧
    (∀ e, fe = FirstEvent.failRecv e →
      (c.Run ctx fe shutdown).1 = some e ∧
      ∀ x, RunEvent.shutdownCalled x ∉ (c.Run ctx fe shutdown).2) ∧
    (fe = FirstEvent.ctxDone →
      (c.Run ctx fe shutdown).1 = shutdown ctx ∧
      RunEvent.shutdownCalled ctx ∈ (c.Run ctx fe shutdown).2) := by
  refine ⟨?_, ?_, ?_⟩
  · cases fe with
    | ctxDone => exact Or.inl rfl
    | failRecv e => exact Or.inr ⟨e, rfl⟩
  · intro e hfe
    subst hfe
    refine ⟨rfl, ?_⟩
    intro x
    simp [Component.Run]
  · intro hfe
    subst hfe
    refine ⟨rfl, ?_⟩
    simp [Component.Run]

/-- Claim C3 witness: a concrete background failure received first
makes `Run` return exactly that error. -/
theorem Run_two_outcomes_witness :
    (defaultComponent.Run 0 (FirstEvent.failRecv
        "listen tcp :50000: bind: address already in use")
      (fun _ : Nat => none)).1 =
      some "listen tcp :50000: bind: address already in use" :=
  ((Run_two_outcomes defaultComponent 0
    (FirstEvent.failRecv "listen tcp :50000: bind: address already in use")
    (fun _ : Nat => none)).2.1
    "listen tcp :50000: bind: address already in use" rfl).1

/-- Claim C7: the handler installed in the server is the caller
middlewares folded outermost-first over the recovery-wrapped router:
`mw[0](mw[1](...mw[n-1](recovery(router))))`.  With no caller
middlewares the handler is exactly `recovery(router)` (the recovery
wrapper sits immediately around the router), and prepending a middleware
applies it outside everything else. -/
theorem createHTTPServer_middleware_order :
    (∀ c : Component, c.createHTTPServer.Handler =
      List.foldr (fun m h => m h)
        (NewRecoveryMiddleware (buildRouter c.routes)) c.middlewares) ∧
    (∀ c : Component, ({ c with middlewares := [] } : Component).createHTTPServer.Handler =
      NewRecoveryMiddleware (buildRouter c.routes)) ∧
    (∀ (c : Component) (m : MiddlewareFunc) (ms : List MiddlewareFunc),
      ({ c with middlewares := m :: ms } : Component).createHTTPServer.Handler =
        m (({ c with middlewares := ms } : Component).createHTTPServer.Handler)) :=
  ⟨fun _ => rfl, fun _ => rfl, fun _ _ _ => rfl⟩

/-- Claim C4: options are applied left-to-right to the fresh default
component and the first failing option aborts construction immediately
with its error — the remaining options are never applied and no
component is returned; and every successful `New` returns the fully
formed component (option fold, then built-in routes, then frozen info),
never a partially-initialized one. -/
theorem New_first_failure_aborts (oo1 oo2 : List OptionFunc) (o : OptionFunc)
    (c1 : Component) (e : GoErr)
    (h1 : applyOptions defaultComponent oo1 = Except.ok c1)
    (h2 : o c1 = Except.error e) :
    New (oo1 ++ o :: oo2) = Except.error e ∧
    ∀ (oo : List OptionFunc) (c : Component), New oo = Except.ok c →
      ∃ c0, applyOptions defaultComponent oo = Except.ok c0 ∧
        c = (addBuiltinRoutes c0).createInfo := by
  constructor
  · have hsplit := applyOptions_append defaultComponent oo1 (o :: oo2)
    rw [h1] at hsplit
    simp only [applyOptions, h2] at hsplit
    unfold New
    rw [hsplit]
  · exact New_ok_elim

/-- Claim C4 witness: a pipeline whose second option fails yields
exactly that first failure. -/
theorem New_first_failure_aborts_witness :
    New [portOption, failingOption] = Except.error "invalid HTTP Port provided" :=
  (New_first_failure_aborts [portOption] [] failingOption
    { defaultComponent with httpPort := 8080 }
    "invalid HTTP Port provided" rfl rfl).1

/-- Claim C5: after a successful `New`, the route sequence is the
routes accumulated by the options (the caller routes, in registration
order) followed by the built-in diagnostic routes in fixed order —
health, then the profiling routes, then metrics, then info — each
appended exactly once, so the four built-in diagnostic route kinds are
always present after construction. -/
theorem New_routes_builtins_appended (oo : List OptionFunc) (c0 c : Component)
    (h0 : applyOptions defaultComponent oo = Except.ok c0)
    (hnew : New oo = Except.ok c) :
    c.routes = (((c0.routes ++ [healthCheckRoute c0.hc]) ++ profilingRoutes)
        ++ [metricRoute]) ++ [infoRoute] ∧
    healthCheckRoute c0.hc ∈ c.routes ∧
    (∀ r ∈ profilingRoutes, r ∈ c.routes) ∧
    metricRoute ∈ c.routes ∧ infoRoute ∈ c.routes := by
  obtain ⟨c0', h0', hc⟩ := New_ok_elim oo c hnew
  rw [h0'] at h0
  cases h0
  subst hc
  have hr : ((addBuiltinRoutes c0).createInfo).routes =
      (((c0.routes ++ [healthCheckRoute c0.hc]) ++ profilingRoutes)
        ++ [metricRoute]) ++ [infoRoute] := rfl
  refine ⟨hr, ?_, ?_, ?_, ?_⟩
  · rw [hr]; simp
  · intro r hpr; rw [hr]; simp [hpr]
  · rw [hr]; simp
  · rw [hr]; simp

/-- Claim C5 witness: the component built from the empty option list
carries exactly the built-in routes after the (empty) caller routes. -/
theorem New_routes_builtins_appended_witness :
    builtComponent.routes =
      (((defaultComponent.routes ++ [healthCheckRoute defaultComponent.hc])
        ++ profilingRoutes) ++ [metricRoute]) ++ [infoRoute] :=
  (New_routes_builtins_appended [] defaultComponent builtComponent rfl rfl).1

/-- Lookups in the info map written by `createInfo` when both TLS paths
are set. -/
theorem createInfo_lookup_tls (cc : Component)
    (htls : cc.keyFile ≠ "" ∧ cc.certFile ≠ "") :
    cc.createInfo.info "type" = some (InfoVal.str "https") ∧
    cc.createInfo.info "port" = some (InfoVal.nat cc.httpPort) ∧
    cc.createInfo.info "read-timeout" = some (InfoVal.dur cc.httpReadTimeout) ∧
    cc.createInfo.info "write-timeout" = some (InfoVal.dur cc.httpWriteTimeout) ∧
    cc.createInfo.info "idle-timeout" = some (InfoVal.dur httpIdleTimeout) ∧
    cc.createInfo.info "key-file" = some (InfoVal.str cc.keyFile) ∧
    cc.createInfo.info "cert-file" = some (InfoVal.str cc.certFile) := by
  simp only [Component.createInfo, if_pos htls]
  refine ⟨?_, ?_, ?_, ?_, ?_, ?_, ?_⟩ <;> simp [setKey]

/-- Lookups in the info map written by `createInfo`, over an initially
empty map, when TLS is not configured. -/
theorem createInfo_lookup_plain (cc : Component) (h : cc.info = emptyInfo)
    (htls : ¬(cc.keyFile ≠ "" ∧ cc.certFile ≠ "")) :
    cc.createInfo.info "type" = some (InfoVal.str "http") ∧
    cc.createInfo.info "port" = some (InfoVal.nat cc.httpPort) ∧
    cc.createInfo.info "read-timeout" = some (InfoVal.dur cc.httpReadTimeout) ∧
    cc.createInfo.info "write-timeout" = some (InfoVal.dur cc.httpWriteTimeout) ∧
    cc.createInfo.info "idle-timeout" = some (InfoVal.dur httpIdleTimeout) ∧
    cc.createInfo.info "key-file" = none ∧
    cc.createInfo.info "cert-file" = none := by
  simp only [Component.createInfo, if_neg htls]
  refine ⟨?_, ?_, ?_, ?_, ?_, ?_, ?_⟩ <;> simp [setKey, h, emptyInfo]

/-- Claim C6: for every component successfully built by `New` (from
options that leave the initially-empty info map alone, as every
construction option does), `info["type"]` is `"https"` iff both cert and
key paths are non-empty and `"http"` otherwise; `type`, `port` and the
three timeouts are always present with the configured values, and
`key-file`/`cert-file` are present exactly when TLS is active. -/
theorem New_info_contents (oo : List OptionFunc) (c : Component)
    (hpres : ∀ o ∈ oo, ∀ a b, o a = Except.ok b → b.info = a.info)
    (hnew : New oo = Except.ok c) :
    (getKey c.info "type" = some (InfoVal.str "https") ↔
      (c.certFile ≠ "" ∧ c.keyFile ≠ "")) ∧
    (getKey c.info "type" = some (InfoVal.str "http") ↔
      ¬(c.certFile ≠ "" ∧ c.keyFile ≠ "")) ∧
    getKey c.info "port" = some (InfoVal.nat c.httpPort) ∧
    getKey c.info "read-timeout" = some (InfoVal.dur c.httpReadTimeout) ∧
    getKey c.info "write-timeout" = some (InfoVal.dur c.httpWriteTimeout) ∧
    getKey c.info "idle-timeout" = some (InfoVal.dur httpIdleTimeout) ∧
    ((getKey c.info "key-file").isSome = true ↔
      (c.certFile ≠ "" ∧ c.keyFile ≠ "")) ∧
    ((getKey c.info "cert-file").isSome = true ↔
      (c.certFile ≠ "" ∧ c.keyFile ≠ "")) := by
  obtain ⟨c0, h0, hc⟩ := New_ok_elim oo c hnew
  have hinfo0 : c0.info = emptyInfo :=
    applyOptions_preserves Component.info oo defaultComponent c0 hpres h0
  subst hc
  set cc := addBuiltinRoutes c0 with hcc
  have hinfo1 : cc.info = emptyInfo := hinfo0
  have hcert : cc.createInfo.certFile = cc.certFile := rfl
  have hkey : cc.createInfo.keyFile = cc.keyFile := rfl
  by_cases htls : cc.keyFile ≠ "" ∧ cc.certFile ≠ ""
  · obtain ⟨h1, h2, h3, h4, h5, h6, h7⟩ := createInfo_lookup_tls cc htls
    simp only [getKey, hcert, hkey]
    simp [h1, h2, h3, h4, h5, h6, h7, htls.1, htls.2]
    exact ⟨rfl, rfl, rfl⟩
  · have htls2 : ¬(cc.certFile ≠ "" ∧ cc.keyFile ≠ "") :=
      fun hx => htls ⟨hx.2, hx.1⟩
    obtain ⟨h1, h2, h3, h4, h5, h6, h7⟩ := createInfo_lookup_plain cc hinfo1 htls
    simp only [getKey, hcert, hkey]
    simp [h1, h2, h3, h4, h5, h6, h7, htls2]
    exact ⟨rfl, rfl, rfl⟩

/-- Claim C6 witness: the component built with the TLS option reports
type https. -/
theorem New_info_contents_witness :
    getKey builtTLSComponent.info "type" = some (InfoVal.str "https") :=
  (New_info_contents [tlsOption] builtTLSComponent
    (by
      intro o ho a b hob
      rw [List.mem_singleton] at ho
      subst ho
      simp only [tlsOption] at hob
      cases hob
      rfl)
    rfl).1.mpr (by decide)

/-- Claim C8 counterexample: a caller-supplied middleware sits outside
the recovery wrapper, so a panic raised directly in the middleware
escapes the installed handler chain unconverted — the claim's "never
escapes" does not hold for caller-supplied middleware. -/
theorem middleware_panic_escapes :
    mwPanicComponent.createHTTPServer.Handler { method := "GET", path := "/health" } =
      HOut.panicked "middleware fault" := rfl

/-- Claim C8 (amended): a panic raised inside the recovery-wrapped part
of the chain — the router, hence every route handler and per-route
middleware — is converted by the recovery wrapper into a 500 response,
and the recovery-wrapped handler yields a response (never a panic) on
every request, so the serving path stays alive for subsequent
requests. -/
theorem recovery_converts_panic (h : Handler) (req : Request) (msg : String)
    (hp : h req = HOut.panicked msg) :
    NewRecoveryMiddleware h req =
      HOut.ok { status := 500, body := "Internal Server Error" } ∧
    ∀ r : Request, (NewRecoveryMiddleware h r).isOk = true := by
  constructor
  · simp only [NewRecoveryMiddleware, hp]
  · intro r
    cases hr : h r <;> simp [NewRecoveryMiddleware, hr, HOut.isOk]

/-- Claim C8 amended witness: a handler that always panics is converted
to a 500 response. -/
theorem recovery_converts_panic_witness :
    NewRecoveryMiddleware panickingHandler { method := "GET", path := "/" } =
      HOut.ok { status := 500, body := "Internal Server Error" } :=
  (recovery_converts_panic panickingHandler { method := "GET", path := "/" }
    "handler fault" rfl).1

/-- Claim C9: the health route maps Healthy to 200, Degraded to 200
with a warning body and Unhealthy to 503, and invokes the predicate
fresh on every call: serving two requests evaluates the predicate twice,
threading its state, so a predicate that flips between calls is observed
flipping (200 then 503). -/
theorem health_route_mapping_and_freshness :
    healthResponse HealthStatus.Healthy = { status := 200, body := "" } ∧
    healthResponse HealthStatus.Degraded = { status := 200, body := "degraded" } ∧
    healthResponse HealthStatus.Unhealthy = { status := 503, body := "" } ∧
    (∀ (σ : Type) (f : σ → HealthStatus × σ) (s : σ),
      serveHealthSeq f 2 s =
        [healthResponse (f s).1, healthResponse (f (f s).2).1]) ∧
    serveHealthSeq flippingHealthCheck 2 true =
      [{ status := 200, body := "" }, { status := 503, body := "" }] :=
  ⟨rfl, rfl, rfl, fun _ _ _ => rfl, rfl⟩

/-- Claim C10: if no option touches the health check, the constructed
component keeps the default health check, which always reports
Healthy. -/
theorem New_default_health_check (oo : List OptionFunc) (c : Component)
    (hpres : ∀ o ∈ oo, ∀ a b, o a = Except.ok b → b.hc = a.hc)
    (hnew : New oo = Except.ok c) :
    c.hc = DefaultHealthCheck ∧ ∀ u, c.hc u = HealthStatus.Healthy := by
  obtain ⟨c0, h0, hc⟩ := New_ok_elim oo c hnew
  have h1 : c0.hc = DefaultHealthCheck :=
    applyOptions_preserves Component.hc oo defaultComponent c0 hpres h0
  subst hc
  have h2 : ((addBuiltinRoutes c0).createInfo).hc = c0.hc := rfl
  rw [h2, h1]
  exact ⟨rfl, fun u => rfl⟩

/-- Claim C10 witness: with no options at all, the built component's
health check is the default and reports Healthy. -/
theorem New_default_health_check_witness :
    builtComponent.hc = DefaultHealthCheck ∧
    builtComponent.hc () = HealthStatus.Healthy := by
  have h := New_default_health_check [] builtComponent
    (fun o ho => absurd ho (List.not_mem_nil o)) rfl
  exact ⟨h.1, h.2 ()⟩

end PatronHttp
